import Mathlib

/-!
Verification of the `multiply_post_processing` orchestration pipeline
(`multiply_post_processing/post_processing.py`) against its specification.

The Python module is shallowly embedded below.  External collaborators
(`multiply_core`, `gdal`, `osr`, `shapely`, `pkg_resources`) are modelled at
their interface boundary: file discovery, observation assembly and raster
reads are fields of an `Env` record, a shapely polygon is represented by its
bounds and centroid (the only two geometric queries the module performs), and
an `osr.SpatialReference` is represented by the identifier it was built from.
Python floats are modelled as exact rationals, Python `int()` truncation as
`pyInt`, and the side effects of a run (progress logging, info logging,
warnings, files written by the GeoTiff writer) as an emitted list of `Event`s
in program order.  Exceptions are modelled by `Except String`.
-/

/-- A calendar date, the part of a Python `datetime` that
`datetime.strftime('%Y%m%d')` consumes. -/
structure MDate where
  year : Nat
  month : Nat
  day : Nat
deriving DecidableEq, Repr

/-- Zero-padding to two digits, as `strftime` does for `%m` and `%d`. -/
def pad2 (n : Nat) : String :=
  if n < 10 then "0" ++ toString n else toString n

/-- Zero-padding to four digits, as `strftime` does for `%Y`. -/
def pad4 (n : Nat) : String :=
  if n < 10 then "000" ++ toString n
  else if n < 100 then "00" ++ toString n
  else if n < 1000 then "0" ++ toString n
  else toString n

/-- `_format(time)` from the source: renders a time as `yyyymmdd`
(`time.strftime('%Y%m%d')`; the string-input branch delegates to the external
parser `get_time_from_string` and is not modelled). -/
def _format (time : MDate) : String :=
  pad4 time.year ++ pad2 time.month ++ pad2 time.day

/-- A point, carrying the two coordinates `roi_center.coords[0]` exposes:
longitude first, then latitude. -/
structure Point where
  lon : ℚ
  lat : ℚ
deriving DecidableEq

/-- A shapely polygon at the interface boundary used by the source:
`roi.bounds` (minx, miny, maxx, maxy) and `roi.centroid`.  WKT parsing of a
string ROI (`shapely.wkt.loads`) is the external collaborator and is not
modelled; the embedding takes the polygon directly. -/
structure Polygon where
  bounds : ℚ × ℚ × ℚ × ℚ
  centroid : Point
deriving DecidableEq

/-- `multiply_core.util.FileRef` at the interface boundary: a discoverable
input artifact. -/
structure FileRef where
  url : String
  start_time : MDate
  end_time : MDate
deriving DecidableEq, Repr

/-- A 2-D numeric array produced by a processor and consumed by the writer. -/
def IndicatorArray : Type := List (List ℚ)

/-- Modelled from the spec: `IndicatorDescription` (declared in
`post_processor.py`, which is not under `src/`) is a value type
`{short_name, description}` whose equality is by value. -/
structure IndicatorDescription where
  short_name : String
  description : String
deriving DecidableEq, Repr

/-- Modelled from the spec: `PostProcessorType` (declared in
`post_processor.py`, which is not under `src/`) has exactly the two variants
the orchestrator dispatches on. -/
inductive PostProcessorType where
  | EO_DATA_POST_PROCESSOR
  | VARIABLE_POST_PROCESSOR
deriving DecidableEq, Repr

/-- The subset of observations inside one `[start, end)` window, at the
interface boundary: the orchestrator only obtains it from
`observations.get_observations_subset(start, end)` and passes it on. -/
structure ObservationsSubset where
  start_time : MDate
  end_time : MDate
deriving DecidableEq

/-- The observations object assembled by the external
`ObservationsFactory`: the source reads `observations.dates` and
`observations.get_num_observations()` (= the length of `dates`, the
deduplicated sequence of acquisition dates) and extracts window subsets. -/
structure Observations where
  dates : List MDate
  get_observations_subset : MDate → MDate → ObservationsSubset

/-- Modelled from the spec: the `PostProcessor` interface of
`post_processor.py` (not under `src/`), as the orchestrator consumes it:
a name, a declared type, the supported raw EO data type names, and the two
processing methods, each returning a mapping from indicator name to array
(a Python dict, modelled as an association list in insertion order). -/
structure PostProcessor where
  name : String
  ptype : PostProcessorType
  supported_eo_data_types : List String
  process_observations : ObservationsSubset → List (String × IndicatorArray)
  process_variables : List (String × IndicatorArray) → List (String × IndicatorArray)

/-- Modelled from the spec: the `PostProcessorCreator` factory interface of
`post_processor.py` (not under `src/`): name, description, declared
indicator descriptions, and processor instantiation bound to a list of
indicator names. -/
structure PostProcessorCreator where
  name : String
  description : String
  indicator_descriptions : List IndicatorDescription
  create_post_processor : List String → PostProcessor

/-- One observable side effect of a run, in program order: a value sent to
the `ComponentProgress` logger, an invocation of a processor on the window or
group with the given index, a file written by the GeoTiff writer, a warning,
or an info log message. -/
inductive Event where
  | progress (percent : ℤ)
  | processed (index : Nat)
  | wrote (file_name : String)
  | warned (message : String)
  | info (message : String)
deriving DecidableEq, Repr

/-- The external collaborators of a run: file discovery
(`get_valid_files`), observation assembly (`ObservationsFactory`), file
validity testing (`is_valid`), and opening + reprojecting + reading a raster
band (`gdal.Open`, `reprojection.reproject`, `ReadAsArray`). -/
structure Env where
  get_valid_files : String → List String → List FileRef
  create_observations : List FileRef → Observations
  is_valid : String → String → Bool
  read_band : String → IndicatorArray

/-- `'\x7b'`, the opening brace of a Python `str.format` placeholder. -/
def braceOpen : Char := Char.ofNat 123

/-- `'\x7d'`, the closing brace of a Python `str.format` placeholder. -/
def braceClose : Char := Char.ofNat 125

/-- Substitution core of Python `str.format` for plain `\x7b\x7d`
placeholders: each placeholder consumes the next argument. -/
def substFormat : List Char → List String → List Char
  | [], _ => []
  | c1 :: c2 :: rest, a :: args =>
    if c1 = braceOpen ∧ c2 = braceClose then a.data ++ substFormat rest args
    else c1 :: substFormat (c2 :: rest) (a :: args)
  | c :: rest, args => c :: substFormat rest args

/-- Python `fmt.format(*args)` for the plain placeholder strings the module
uses. -/
def pyformat (fmt : String) (args : List String) : String :=
  String.mk (substFormat fmt.data args)

/-- `SINGLE_NAME_FORMAT = '\x7b\x7d_\x7b\x7d.tif'` from the source. -/
def SINGLE_NAME_FORMAT : String := "\x7b\x7d_\x7b\x7d.tif"

/-- `DOUBLE_NAME_FORMAT = '\x7b\x7d_\x7b\x7d_\x7b\x7d.tif'` from the source. -/
def DOUBLE_NAME_FORMAT : String := "\x7b\x7d_\x7b\x7d_\x7b\x7d.tif"

/-- `os.path.join` for the simple directory + file-name case the module
uses. -/
def path_join (directory file_name : String) : String :=
  directory ++ "/" ++ file_name

/-- An `osr.SpatialReference`, represented by the identifier it was built
from: an EPSG code (`ImportFromEPSG`), a WKT text (`ImportFromWkt`), or a
WGS84-based UTM zone (`SetWellKnownGeogCS('WGS84')` + `SetUTM`). -/
inductive SpatialReference where
  | epsg (code : ℤ)
  | wkt (text : String)
  | utm (zone : ℤ) (northern : Bool)
deriving DecidableEq, Repr

/-- `osr`'s `IsSame`, modelled as structural equality of the parsed
reference.  This is exact on the EPSG-code and UTM references the module
builds; equivalence between an EPSG code and a WKT text spelling the same
system is below the granularity of the embedding. -/
def isSame (a b : SpatialReference) : Bool := a == b

/-- Digit-string to number, as Python `int()` on the digit strings appearing
after `EPSG:` (failure of `int()` on non-digit text is an external error mode
the claims do not touch). -/
def parseDigits (cs : List Char) : Nat :=
  cs.foldl (fun acc c => acc * 10 + (c.toNat - 48)) 0

/-- `_get_reference_system` on a present hint: `EPSG:`-prefixed strings are
imported by code (`int(wkt.split(':')[1])`), anything else is treated as WKT
text. -/
def _parse_srs (s : String) : SpatialReference :=
  if s.data.take 5 = ['E', 'P', 'S', 'G', ':'] then
    SpatialReference.epsg (parseDigits ((s.data.drop 5).takeWhile (fun c => c ≠ ':')))
  else
    SpatialReference.wkt s

/-- `_get_reference_system(wkt)` from the source: `None` maps to `None`,
otherwise the hint is parsed. -/
def _get_reference_system (wkt : Option String) : Option SpatialReference :=
  wkt.map _parse_srs

/-- Python `int()` on an exact rational: truncation toward zero. -/
def pyInt (q : ℚ) : ℤ :=
  if q < 0 then -⌊-q⌋ else ⌊q⌋

/-- `_get_projected_srs(roi_center)` from the source:
`utm_zone = int(1 + (lon + 180.0) / 6.0)`, `is_northern = int(lat > 0.0)`,
then a WGS84-based UTM spatial reference system is built from the two. -/
def _get_projected_srs (roi_center : Point) : SpatialReference :=
  SpatialReference.utm (pyInt (1 + (roi_center.lon + 180) / 6)) (0 < roi_center.lat)

/-- `multiply_core.util.Reprojection` as constructed by the source:
`Reprojection(roi_bounds, spatial_resolution, spatial_resolution,
destination_srs, roi_srs)`. -/
structure Reprojection where
  bounds : ℚ × ℚ × ℚ × ℚ
  x_res : ℤ
  y_res : ℤ
  destination_srs : SpatialReference
  roi_srs : SpatialReference
deriving DecidableEq

/-- `_get_reprojection(spatial_resolution, roi, roi_grid, destination_grid)`
from the source, with `raise ValueError` modelled as `Except.error`. -/
def _get_reprojection (spatial_resolution : ℤ) (roi : Polygon)
    (roi_grid : Option String := none) (destination_grid : Option String := none) :
    Except String Reprojection :=
  let roi_bounds := roi.bounds
  let roi_center := roi.centroid
  let roi_srs := _get_reference_system roi_grid
  let destination_srs := _get_reference_system destination_grid
  let wgs84_srs := _parse_srs "EPSG:4326"
  match roi_srs with
  | none =>
    match destination_srs with
    | none =>
      Except.ok ⟨roi_bounds, spatial_resolution, spatial_resolution,
        _get_projected_srs roi_center, wgs84_srs⟩
    | some d =>
      Except.ok ⟨roi_bounds, spatial_resolution, spatial_resolution, d, d⟩
  | some r =>
    match destination_srs with
    | none =>
      if isSame r wgs84_srs then
        Except.ok ⟨roi_bounds, spatial_resolution, spatial_resolution,
          _get_projected_srs roi_center, r⟩
      else
        Except.error ("Cannot derive destination grid for roi grid " ++
          roi_grid.getD "None" ++ ". Please specify destination grid")
    | some d =>
      Except.ok ⟨roi_bounds, spatial_resolution, spatial_resolution, d, r⟩

/-- `get_post_processors(requested_indicator_names)` from the source: for
each registered creator, in registration order, collect the short names of
its declared indicator descriptions that occur in the request; if any were
collected, instantiate a processor bound to them.  The registry
(`POST_PROCESSOR_CREATOR_REGISTRY`, a process-wide list) is passed
explicitly. -/
def get_post_processors (registry : List PostProcessorCreator)
    (requested_indicator_names : List String) : List PostProcessor :=
  match registry with
  | [] => []
  | creator :: rest =>
    let indicator_names :=
      (creator.indicator_descriptions.map IndicatorDescription.short_name).filter
        (fun n => requested_indicator_names.contains n)
    if indicator_names.length > 0 then
      creator.create_post_processor indicator_names ::
        get_post_processors rest requested_indicator_names
    else
      get_post_processors rest requested_indicator_names

/-- `get_post_processor(name, indicator_names)` from the source: linear scan
for an exact name match; `raise ValueError` if absent. -/
def get_post_processor (registry : List PostProcessorCreator) (name : String)
    (indicator_names : List String) : Except String PostProcessor :=
  match registry with
  | [] => Except.error ("No post processor with name " ++ name ++ " found.")
  | creator :: rest =>
    if name = creator.name then Except.ok (creator.create_post_processor indicator_names)
    else get_post_processor rest name indicator_names

/-- The inner loop of `get_available_indicators`: append each description of
one creator to the accumulator unless an equal one (Python `in`, i.e. value
equality) is already there. -/
def addIndicatorDescriptions (acc : List IndicatorDescription)
    (descriptions : List IndicatorDescription) : List IndicatorDescription :=
  match descriptions with
  | [] => acc
  | d :: rest =>
    if acc.contains d then addIndicatorDescriptions acc rest
    else addIndicatorDescriptions (acc ++ [d]) rest

/-- `get_available_indicators()` from the source: collect the indicator
descriptions of every registered creator, skipping descriptions already
collected. -/
def get_available_indicators (registry : List PostProcessorCreator) :
    List IndicatorDescription :=
  registry.foldl (fun acc creator => addIndicatorDescriptions acc creator.indicator_descriptions) []

/-- `_group_file_refs_by_date(file_refs)` from the source: a Python dict in
insertion order mapping each literal `start_time` to the file refs carrying
it, modelled as an association list keyed in first-seen order. -/
def _group_file_refs_by_date (file_refs : List FileRef) : List (MDate × List FileRef) :=
  file_refs.foldl (fun groups file_ref =>
    if groups.any (fun g => g.1 = file_ref.start_time) then
      groups.map (fun g =>
        if g.1 = file_ref.start_time then (g.1, g.2 ++ [file_ref]) else g)
    else
      groups ++ [(file_ref.start_time, [file_ref])]) []

/-- `_write(indicators, file_names, roi, ...)` from the source: it first
derives a reprojection (raising if the hints are unresolvable), then either
writes every file name through the GeoTiff writer or, for any other format,
only logs an unsupported-format warning.  The reprojected dummy data set that
supplies output geometry is an external collaborator with no observable
effect beyond geometry, so only the written files and the warning are
emitted. -/
def _write (indicators : List IndicatorArray) (file_names : List String) (roi : Polygon)
    (spatial_resolution : ℤ) (roi_grid destination_grid : Option String)
    (output_format : String := "GeoTiff") : Except String (List Event) :=
  match _get_reprojection spatial_resolution roi roi_grid destination_grid with
  | Except.error e => Except.error e
  | Except.ok _reprojection =>
    if output_format = "GeoTiff" then
      Except.ok (file_names.map Event.wrote)
    else
      Except.ok [Event.warned ("Writing of " ++ output_format ++
        " not supported. Can not write post-processing results.")]

/-- `_run_eo_data_post_processor` from the source.  Discovered files are
assembled into observations; with fewer than two observations the run logs
an info message and returns.  Otherwise each consecutive pair of dates forms
a window: the progress percentage `int((i / (n - 1)) * 100)` is logged first,
the processor is invoked on the window subset, and the indicator arrays are
written under `DOUBLE_NAME_FORMAT` names. -/
def _run_eo_data_post_processor (env : Env) (post_processor : PostProcessor)
    (data_path output_path : String) (roi : Polygon) (spatial_resolution : ℤ)
    (roi_grid destination_grid : Option String) (output_format : String := "GeoTiff") :
    Except String (List Event) :=
  let supported_eo_data_types := post_processor.supported_eo_data_types
  let file_refs := env.get_valid_files data_path supported_eo_data_types
  match _get_reprojection spatial_resolution roi roi_grid destination_grid with
  | Except.error e => Except.error e
  | Except.ok _reprojection =>
    let observations := env.create_observations file_refs
    let n := observations.dates.length
    if n < 2 then
      Except.ok [Event.info ("Not enough observations found. " ++
        "Can not conduct post processing for " ++ post_processor.name)]
    else
      (List.range (n - 1)).foldlM (fun events (i : Nat) =>
        let start_date := observations.dates.getD i ⟨0, 0, 0⟩
        let end_date := observations.dates.getD (i + 1) ⟨0, 0, 0⟩
        let observations_subset := observations.get_observations_subset start_date end_date
        let indicator_dict := post_processor.process_observations observations_subset
        let results := indicator_dict.map Prod.snd
        let file_names := indicator_dict.map (fun p =>
          path_join output_path
            (pyformat DOUBLE_NAME_FORMAT [p.1, _format start_date, _format end_date]))
        match _write results file_names roi spatial_resolution roi_grid destination_grid
            output_format with
        | Except.error e => Except.error e
        | Except.ok write_events =>
          Except.ok (events ++
            Event.progress (pyInt (((i : ℚ) / ((n - 1 : Nat) : ℚ)) * 100)) ::
            Event.processed i :: write_events)) []

/-- `_run_variable_post_processor` from the source.  Discovered files are
grouped by literal start time; for each date group (in first-seen order) the
progress percentage `int((i / len(groups)) * 100)` is logged first, then for
each requested variable the first valid file of the group is read through the
reprojection, the processor is invoked on the name-to-array mapping, and the
indicator arrays are written under `SINGLE_NAME_FORMAT` names. -/
def _run_variable_post_processor (env : Env) (post_processor : PostProcessor)
    (data_path output_path : String) (variable_names : List String) (roi : Polygon)
    (spatial_resolution : ℤ) (roi_grid destination_grid : Option String)
    (output_format : String := "GeoTiff") : Except String (List Event) :=
  let file_refs := env.get_valid_files data_path variable_names
  let file_ref_groups := _group_file_refs_by_date file_refs
  match _get_reprojection spatial_resolution roi roi_grid destination_grid with
  | Except.error e => Except.error e
  | Except.ok _reprojection =>
    file_ref_groups.enum.foldlM (fun events entry =>
      let i : Nat := entry.1
      let date := entry.2.1
      let file_refs_for_date := entry.2.2
      let data_files := variable_names.filterMap (fun variable_name =>
        (file_refs_for_date.find? (fun file_ref => env.is_valid file_ref.url variable_name)).map
          (fun file_ref => (variable_name, file_ref.url)))
      let variable_data := data_files.map (fun p => (p.1, env.read_band p.2))
      let indicator_dict := post_processor.process_variables variable_data
      let results := indicator_dict.map Prod.snd
      let file_names := indicator_dict.map (fun p =>
        path_join output_path (pyformat SINGLE_NAME_FORMAT [p.1, _format date]))
      match _write results file_names roi spatial_resolution roi_grid destination_grid
          output_format with
      | Except.error e => Except.error e
      | Except.ok write_events =>
        Except.ok (events ++
          Event.progress (pyInt (((i : ℚ) / ((file_ref_groups.length : Nat) : ℚ)) * 100)) ::
          Event.processed i :: write_events)) []

/-- `run_actual_post_processor` from the source: dispatch on the processor's
declared type; the variable path additionally requires `variable_names`
(`raise ValueError` when it is `None`). -/
def run_actual_post_processor (env : Env) (post_processor : PostProcessor)
    (data_path output_path : String) (roi : Polygon) (spatial_resolution : ℤ)
    (variable_names : Option (List String) := none)
    (roi_grid : Option String := some "EPSG:4326") (destination_grid : Option String := none)
    (output_format : String := "GeoTiff") : Except String (List Event) :=
  match post_processor.ptype with
  | PostProcessorType.EO_DATA_POST_PROCESSOR =>
    _run_eo_data_post_processor env post_processor data_path output_path roi
      spatial_resolution roi_grid destination_grid output_format
  | PostProcessorType.VARIABLE_POST_PROCESSOR =>
    match variable_names with
    | none => Except.error "No list with variable names be provided."
    | some names =>
      _run_variable_post_processor env post_processor data_path output_path names roi
        spatial_resolution roi_grid destination_grid output_format

/-- `run_post_processing` from the source: resolve the processors matching
the requested indicator names and run each in turn (a raised exception
aborts the batch, as in Python).  The events of the successive runs are
concatenated. -/
def run_post_processing (env : Env) (registry : List PostProcessorCreator)
    (indicator_names : List String) (data_path output_path : String) (roi : Polygon)
    (spatial_resolution : ℤ) (variable_names : Option (List String) := none)
    (roi_grid : Option String := some "EPSG:4326") (destination_grid : Option String := none)
    (output_format : String := "GeoTiff") : Except String (List Event) :=
  (get_post_processors registry indicator_names).foldlM (fun events post_processor =>
    match run_actual_post_processor env post_processor data_path output_path roi
        spatial_resolution variable_names roi_grid destination_grid output_format with
    | Except.error e => Except.error e
    | Except.ok run_events => Except.ok (events ++ run_events)) []

/-- `run_post_processor` from the source: resolve one processor by name and
run it. -/
def run_post_processor (env : Env) (registry : List PostProcessorCreator) (name : String)
    (data_path output_path : String) (roi : Polygon) (spatial_resolution : ℤ)
    (indicator_names : List String := []) (variable_names : Option (List String) := none)
    (roi_grid : Option String := some "EPSG:4326") (destination_grid : Option String := none)
    (output_format : String := "GeoTiff") : Except String (List Event) :=
  match get_post_processor registry name indicator_names with
  | Except.error e => Except.error e
  | Except.ok post_processor =>
    run_actual_post_processor env post_processor data_path output_path roi
      spatial_resolution variable_names roi_grid destination_grid output_format

/-- True on the events the progress-order property speaks about. -/
def isProgressOrProcessed : Event → Bool
  | Event.progress _ => true
  | Event.processed _ => true
  | _ => false

/-- The percentage carried by a progress event. -/
def progressValue? : Event → Option ℤ
  | Event.progress p => some p
  | _ => none

/-- True on file-written events. -/
def isWrote : Event → Bool
  | Event.wrote _ => true
  | _ => false

/-- Whether, in a trace, every progress value is emitted only after the
window or group of the same ordinal has been processed: scanning left to
right, the k-th progress event (0-based) must be preceded by at least k+1
processor invocations. -/
def progressAfterProcessing (events : List Event) : Bool :=
  (events.foldl (fun st e =>
    match e with
    | Event.progress _ => (st.1 && decide (st.2.1 < st.2.2), st.2.1 + 1, st.2.2)
    | Event.processed _ => (st.1, st.2.1, st.2.2 + 1)
    | _ => st) ((true, 0, 0) : Bool × Nat × Nat)).1

/-- The number of observations a run assembles, for stating trace
properties. -/
def observationCount (env : Env) (post_processor : PostProcessor) (data_path : String) : Nat :=
  (env.create_observations
    (env.get_valid_files data_path post_processor.supported_eo_data_types)).dates.length

/-- The number of date groups a variable run forms, for stating trace
properties. -/
def groupCount (env : Env) (data_path : String) (variable_names : List String) : Nat :=
  (_group_file_refs_by_date (env.get_valid_files data_path variable_names)).length

/-- The events one observation window of `_run_eo_data_post_processor`
contributes, read off from the loop body: the progress percentage first,
then the processor invocation, then the writer's events. -/
def eoWindowEvents (env : Env) (post_processor : PostProcessor) (data_path output_path : String)
    (output_format : String) (i : Nat) : List Event :=
  let observations := env.create_observations
    (env.get_valid_files data_path post_processor.supported_eo_data_types)
  let n := observations.dates.length
  let start_date := observations.dates.getD i ⟨0, 0, 0⟩
  let end_date := observations.dates.getD (i + 1) ⟨0, 0, 0⟩
  let indicator_dict := post_processor.process_observations
    (observations.get_observations_subset start_date end_date)
  let file_names := indicator_dict.map (fun p =>
    path_join output_path (pyformat DOUBLE_NAME_FORMAT [p.1, _format start_date, _format end_date]))
  Event.progress (pyInt (((i : ℚ) / ((n - 1 : Nat) : ℚ)) * 100)) ::
    Event.processed i ::
    (if output_format = "GeoTiff" then file_names.map Event.wrote
     else [Event.warned ("Writing of " ++ output_format ++
       " not supported. Can not write post-processing results.")])

/-- The events one date group of `_run_variable_post_processor` contributes,
read off from the loop body. -/
def varGroupEvents (env : Env) (post_processor : PostProcessor) (data_path output_path : String)
    (variable_names : List String) (output_format : String)
    (entry : Nat × MDate × List FileRef) : List Event :=
  let file_ref_groups := _group_file_refs_by_date (env.get_valid_files data_path variable_names)
  let i := entry.1
  let date := entry.2.1
  let file_refs_for_date := entry.2.2
  let data_files := variable_names.filterMap (fun variable_name =>
    (file_refs_for_date.find? (fun file_ref => env.is_valid file_ref.url variable_name)).map
      (fun file_ref => (variable_name, file_ref.url)))
  let indicator_dict := post_processor.process_variables
    (data_files.map (fun p => (p.1, env.read_band p.2)))
  let file_names := indicator_dict.map (fun p =>
    path_join output_path (pyformat SINGLE_NAME_FORMAT [p.1, _format date]))
  Event.progress (pyInt (((i : ℚ) / ((file_ref_groups.length : Nat) : ℚ)) * 100)) ::
    Event.processed i ::
    (if output_format = "GeoTiff" then file_names.map Event.wrote
     else [Event.warned ("Writing of " ++ output_format ++
       " not supported. Can not write post-processing results.")])

/-- A polygon fixture: unit-ish square with centroid at 9°E, 50°N. -/
def samplePolygon : Polygon := ⟨(0, 0, 2, 2), ⟨9, 50⟩⟩

/-- Date fixtures for concrete runs. -/
def sampleDateA : MDate := ⟨2020, 1, 1⟩

def sampleDateB : MDate := ⟨2020, 1, 16⟩

/-- A processor fixture with no behaviour, for registry examples. -/
def dummyProcessor : PostProcessor :=
  ⟨"dummy", PostProcessorType.EO_DATA_POST_PROCESSOR, [], fun _ => [], fun _ => []⟩

/-- Two creator fixtures that both declare the same `NBR` indicator
description. -/
def nbrCreatorA : PostProcessorCreator :=
  ⟨"A", "first", [⟨"NBR", "Normalized Burn Ratio"⟩], fun _ => dummyProcessor⟩

def nbrCreatorB : PostProcessorCreator :=
  ⟨"B", "second", [⟨"NBR", "Normalized Burn Ratio"⟩], fun _ => dummyProcessor⟩

/-- An environment fixture whose observation assembly yields exactly one
acquisition date. -/
def oneDateEnv : Env :=
  ⟨fun _ _ => [], fun _ => ⟨[sampleDateA], fun s e => ⟨s, e⟩⟩, fun _ _ => true, fun _ => []⟩

/-- An environment fixture whose observation assembly yields two acquisition
dates, and whose file discovery yields one file per variable dated
`sampleDateA`. -/
def twoDateEnv : Env :=
  ⟨fun _ names => names.map (fun n => ⟨n ++ ".tif", sampleDateA, sampleDateA⟩),
   fun _ => ⟨[sampleDateA, sampleDateB], fun s e => ⟨s, e⟩⟩, fun _ _ => true, fun _ => []⟩

/-- An observation-type processor fixture deriving one indicator `X`. -/
def windowProcessor : PostProcessor :=
  ⟨"Window", PostProcessorType.EO_DATA_POST_PROCESSOR, ["S2L2"],
   fun _ => [("X", [])], fun _ => []⟩

/-- A variable-type processor fixture. -/
def variableProcessor : PostProcessor :=
  ⟨"Vars", PostProcessorType.VARIABLE_POST_PROCESSOR, [], fun _ => [], fun v => v⟩

/-- The order-preserving intersection of a creator's declared indicator
short names with a request, exactly as §4.1 of the spec describes factory
selection. -/
def requestedIntersection (creator : PostProcessorCreator) (requested : List String) :
    List String :=
  (creator.indicator_descriptions.map IndicatorDescription.short_name).filter
    (fun n => requested.contains n)

theorem pyInt_eq_floor (q : ℚ) (h : 0 ≤ q) : pyInt q = ⌊q⌋ := by
  simp [pyInt, if_neg (not_lt.mpr h)]

theorem parse_wgs84 : _parse_srs "EPSG:4326" = SpatialReference.epsg 4326 := by decide

/-- **C1.** `_get_reprojection` is deterministic (it is a function) and its
case analysis over the two optional grid hints is exactly: both hints absent
gives WGS84 as ROI system and the UTM zone of the centroid as destination;
only the ROI hint absent copies the destination system onto the ROI; a WGS84
ROI hint with absent destination derives the centroid UTM zone; both hints
present are used as given; and it fails exactly when the ROI hint is present
but not WGS84 while the destination hint is absent. -/
theorem reprojection_resolver_cases (res : ℤ) (roi : Polygon) :
    (_get_reprojection res roi none none =
      Except.ok ⟨roi.bounds, res, res, _get_projected_srs roi.centroid,
        SpatialReference.epsg 4326⟩) ∧
    (∀ d, _get_reprojection res roi none (some d) =
      Except.ok ⟨roi.bounds, res, res, _parse_srs d, _parse_srs d⟩) ∧
    (∀ s, isSame (_parse_srs s) (SpatialReference.epsg 4326) = true →
      _get_reprojection res roi (some s) none =
        Except.ok ⟨roi.bounds, res, res, _get_projected_srs roi.centroid, _parse_srs s⟩) ∧
    (∀ s d, _get_reprojection res roi (some s) (some d) =
      Except.ok ⟨roi.bounds, res, res, _parse_srs d, _parse_srs s⟩) ∧
    (∀ roi_grid destination_grid,
      (_get_reprojection res roi roi_grid destination_grid).isOk = false ↔
        destination_grid = none ∧ ∃ s, roi_grid = some s ∧
          isSame (_parse_srs s) (SpatialReference.epsg 4326) = false) := by
  refine ⟨?_, ?_, ?_, ?_, ?_⟩
  · simp [_get_reprojection, _get_reference_system, parse_wgs84]
  · intro d
    simp [_get_reprojection, _get_reference_system]
  · intro s hs
    simp [_get_reprojection, _get_reference_system, parse_wgs84, hs]
  · intro s d
    simp [_get_reprojection, _get_reference_system]
  · intro roi_grid destination_grid
    cases roi_grid with
    | none =>
      cases destination_grid with
      | none => simp [_get_reprojection, _get_reference_system, Except.isOk, Except.toBool]
      | some d => simp [_get_reprojection, _get_reference_system, Except.isOk, Except.toBool]
    | some s =>
      cases destination_grid with
      | none =>
        cases hss : isSame (_parse_srs s) (SpatialReference.epsg 4326) with
        | true =>
          simp [_get_reprojection, _get_reference_system, parse_wgs84, hss, Except.isOk,
            Except.toBool]
        | false =>
          simp [_get_reprojection, _get_reference_system, parse_wgs84, hss, Except.isOk,
            Except.toBool]
      | some d => simp [_get_reprojection, _get_reference_system, Except.isOk, Except.toBool]

theorem reprojection_resolver_cases_witness :
    isSame (_parse_srs "EPSG:4326") (SpatialReference.epsg 4326) = true ∧
    _get_reprojection 10 ⟨(0, 0, 2, 2), ⟨9, 50⟩⟩ (some "EPSG:4326") none =
      Except.ok ⟨(0, 0, 2, 2), 10, 10,
        _get_projected_srs ⟨9, 50⟩, _parse_srs "EPSG:4326"⟩ :=
  ⟨by decide, (reprojection_resolver_cases 10 ⟨(0, 0, 2, 2), ⟨9, 50⟩⟩).2.2.1
    "EPSG:4326" (by decide)⟩

/-- **C2 (counterexample).** The concrete examples of the claim are wrong on
the code: the centroid longitude 9.0 derives UTM zone 32 (not 31) and the
longitude -123.0 derives UTM zone 10 (not 2), matching the claim's own
formula `floor((lon+180)/6) + 1` but not its stated values. -/
theorem utm_zone_spec_examples_refuted :
    _get_projected_srs ⟨9, 50⟩ = SpatialReference.utm 32 true ∧
    SpatialReference.utm 32 true ≠ SpatialReference.utm 31 true ∧
    _get_projected_srs ⟨-123, -10⟩ = SpatialReference.utm 10 false ∧
    SpatialReference.utm 10 false ≠ SpatialReference.utm 2 false := by
  refine ⟨?_, by decide, ?_, by decide⟩
  · have h1 : pyInt (1 + ((9 : ℚ) + 180) / 6) = 32 := by
      rw [pyInt_eq_floor _ (by norm_num)]
      norm_num
    simp [_get_projected_srs, h1]
  · have h1 : pyInt (1 + ((-123 : ℚ) + 180) / 6) = 10 := by
      rw [pyInt_eq_floor _ (by norm_num)]
      norm_num
    simp [_get_projected_srs, h1]

/-- **C2 (amended).** For any centroid with in-range longitude the derived
UTM zone is `floor((lon+180)/6) + 1` and the northern flag is true exactly
when the latitude is strictly positive; in particular longitude 9.0 gives
zone 32 and longitude -123.0 gives zone 10 (the claim's stated values 31
and 2 are corrected). -/
theorem utm_zone_derivation (c : Point) (h : -180 ≤ c.lon) :
    _get_projected_srs c =
      SpatialReference.utm (⌊(c.lon + 180) / 6⌋ + 1) (decide (0 < c.lat)) := by
  have hx : (0 : ℚ) ≤ (c.lon + 180) / 6 := by
    apply div_nonneg _ (by norm_num)
    linarith
  have h1 : pyInt (1 + (c.lon + 180) / 6) = ⌊(c.lon + 180) / 6⌋ + 1 := by
    rw [pyInt_eq_floor _ (by linarith), add_comm, Int.floor_add_one]
  simp [_get_projected_srs, h1]

theorem utm_zone_derivation_witness :
    (-180 : ℚ) ≤ 9 ∧
    _get_projected_srs ⟨9, 50⟩ =
      SpatialReference.utm (⌊(((9 : ℚ)) + 180) / 6⌋ + 1) (decide ((0 : ℚ) < 50)) :=
  ⟨by decide, utm_zone_derivation ⟨9, 50⟩ (by decide)⟩

/-- **C3.** Resolving processors by indicator names returns, in registration
order, one processor per creator whose declared short names meet the request,
each bound to exactly the order-preserving intersection; a creator with an
empty intersection contributes nothing, and membership in that intersection
is exactly joint membership in the declared names and the request. -/
theorem post_processor_selection_by_indicators (registry : List PostProcessorCreator)
    (requested : List String) :
    get_post_processors registry requested =
      (registry.filter (fun c => (requestedIntersection c requested).length > 0)).map
        (fun c => c.create_post_processor (requestedIntersection c requested)) ∧
    (∀ c n, n ∈ requestedIntersection c requested ↔
      (n ∈ c.indicator_descriptions.map IndicatorDescription.short_name ∧ n ∈ requested)) := by
  constructor
  · induction registry with
    | nil => simp [get_post_processors]
    | cons creator rest ih =>
      simp only [get_post_processors]
      have hfold : (creator.indicator_descriptions.map IndicatorDescription.short_name).filter
          (fun n => requested.contains n) = requestedIntersection creator requested := rfl
      rw [hfold]
      by_cases hc : (requestedIntersection creator requested).length > 0
      · rw [if_pos hc, List.filter_cons_of_pos (by simpa using hc), List.map_cons, ih]
      · rw [if_neg hc, List.filter_cons_of_neg (by simpa using hc), ih]
  · intro c n
    simp [requestedIntersection, List.mem_filter]

theorem pyformat_single (a b : String) :
    pyformat SINGLE_NAME_FORMAT [a, b] = a ++ "_" ++ b ++ ".tif" := by
  apply String.ext
  show substFormat SINGLE_NAME_FORMAT.data [a, b] = _
  rw [show SINGLE_NAME_FORMAT.data =
    [braceOpen, braceClose, '_', braceOpen, braceClose, '.', 't', 'i', 'f'] from rfl]
  simp [substFormat, String.data_append, braceOpen, braceClose]

theorem pyformat_double (a b c : String) :
    pyformat DOUBLE_NAME_FORMAT [a, b, c] = a ++ "_" ++ b ++ "_" ++ c ++ ".tif" := by
  apply String.ext
  show substFormat DOUBLE_NAME_FORMAT.data [a, b, c] = _
  rw [show DOUBLE_NAME_FORMAT.data =
    [braceOpen, braceClose, '_', braceOpen, braceClose, '_', braceOpen, braceClose,
      '.', 't', 'i', 'f'] from rfl]
  simp [substFormat, String.data_append, braceOpen, braceClose]

/-- **C7.** The output file names are deterministic: the single-date scheme
yields `indicator_yyyymmdd.tif`, the paired-window scheme yields
`indicator_yyyymmdd_yyyymmdd.tif`, and in particular `SMA` on 2020-03-04
yields `SMA_20200304.tif` and `BurnSeverity` over 2020-01-01..2020-01-16
yields `BurnSeverity_20200101_20200116.tif`. -/
theorem output_file_naming :
    (∀ (indicator : String) (d : MDate),
      pyformat SINGLE_NAME_FORMAT [indicator, _format d] =
        indicator ++ "_" ++ _format d ++ ".tif") ∧
    (∀ (indicator : String) (s e : MDate),
      pyformat DOUBLE_NAME_FORMAT [indicator, _format s, _format e] =
        indicator ++ "_" ++ _format s ++ "_" ++ _format e ++ ".tif") ∧
    pyformat SINGLE_NAME_FORMAT ["SMA", _format ⟨2020, 3, 4⟩] = "SMA_20200304.tif" ∧
    pyformat DOUBLE_NAME_FORMAT ["BurnSeverity", _format ⟨2020, 1, 1⟩, _format ⟨2020, 1, 16⟩] =
      "BurnSeverity_20200101_20200116.tif" :=
  ⟨fun indicator d => pyformat_single indicator (_format d),
   fun indicator s e => pyformat_double indicator (_format s) (_format e),
   by decide, by decide⟩

theorem addIndicatorDescriptions_nodup (descriptions : List IndicatorDescription) :
    ∀ acc : List IndicatorDescription, acc.Nodup →
      (addIndicatorDescriptions acc descriptions).Nodup := by
  induction descriptions with
  | nil => intro acc h; exact h
  | cons d rest ih =>
    intro acc h
    simp only [addIndicatorDescriptions]
    by_cases hd : acc.contains d
    · rw [if_pos hd]
      exact ih _ h
    · rw [if_neg hd]
      apply ih
      simp at hd
      simp [List.nodup_append, h, hd]

theorem get_available_indicators_nodup (registry : List PostProcessorCreator) :
    (get_available_indicators registry).Nodup := by
  have aux : ∀ (reg : List PostProcessorCreator) (acc : List IndicatorDescription), acc.Nodup →
      (reg.foldl (fun acc creator =>
        addIndicatorDescriptions acc creator.indicator_descriptions) acc).Nodup := by
    intro reg
    induction reg with
    | nil => intro acc h; exact h
    | cons c rest ih =>
      intro acc h
      exact ih _ (addIndicatorDescriptions_nodup _ _ h)
  exact aux registry [] List.nodup_nil

/-- **C8.** The available-indicator listing never contains two value-equal
descriptions, and two creators that both declare an indicator named `NBR`
with identical description contribute exactly one entry. -/
theorem available_indicators_value_dedup (registry : List PostProcessorCreator) :
    (get_available_indicators registry).Nodup ∧
    get_available_indicators [nbrCreatorA, nbrCreatorB] =
      [⟨"NBR", "Normalized Burn Ratio"⟩] :=
  ⟨get_available_indicators_nodup registry, by rfl⟩

theorem write_resolves_then_branches (indicators : List IndicatorArray)
    (file_names : List String) (roi : Polygon) (res : ℤ) (rg dg : Option String)
    (fmt : String) (r : Reprojection) (hr : _get_reprojection res roi rg dg = Except.ok r) :
    _write indicators file_names roi res rg dg fmt =
      Except.ok (if fmt = "GeoTiff" then file_names.map Event.wrote
        else [Event.warned ("Writing of " ++ fmt ++
          " not supported. Can not write post-processing results.")]) := by
  simp only [_write, hr]
  split <;> rfl

/-- **C6 (counterexample).** The claim fails as universally stated: the
writer derives the reprojection before looking at the format, so a call with
`format="NetCDF"` but an unresolvable hint combination (non-WGS84 ROI grid,
absent destination grid) raises instead of being a no-op. -/
theorem unsupported_format_raise_refuted :
    _write [[]] ["f.tif"] samplePolygon 10 (some "EPSG:32631") none "NetCDF" =
      Except.error ("Cannot derive destination grid for roi grid EPSG:32631. " ++
        "Please specify destination grid") ∧
    (_write [[]] ["f.tif"] samplePolygon 10 (some "EPSG:32631") none "NetCDF").isOk = false :=
  ⟨by rfl, by rfl⟩

/-- **C6 (amended).** Whenever the grid hints resolve, a call to the writer
with any format other than `GeoTiff` writes no file and raises no error: it
returns normally having only reported an unsupported-format warning. -/
theorem unsupported_format_noop (indicators : List IndicatorArray)
    (file_names : List String) (roi : Polygon) (res : ℤ) (rg dg : Option String)
    (fmt : String) (r : Reprojection) (hr : _get_reprojection res roi rg dg = Except.ok r)
    (hf : fmt ≠ "GeoTiff") :
    _write indicators file_names roi res rg dg fmt =
      Except.ok [Event.warned ("Writing of " ++ fmt ++
        " not supported. Can not write post-processing results.")] := by
  rw [write_resolves_then_branches indicators file_names roi res rg dg fmt r hr, if_neg hf]

theorem foldlM_ok_blocks {α : Type} (f : List Event → α → Except String (List Event))
    (block : α → List Event)
    (hf : ∀ events a, f events a = Except.ok (events ++ block a)) :
    ∀ (l : List α) (init : List Event),
      List.foldlM f init l = Except.ok (init ++ l.flatMap block) := by
  intro l
  induction l with
  | nil =>
    intro init
    simp only [List.foldlM_nil, List.flatMap_nil, List.append_nil]
    rfl
  | cons a t ih =>
    intro init
    rw [List.foldlM_cons, hf]
    show List.foldlM f (init ++ block a) t = _
    rw [ih, List.append_assoc, List.flatMap_cons]

theorem eo_run_trace (env : Env) (pp : PostProcessor) (dp op : String) (roi : Polygon)
    (res : ℤ) (rg dg : Option String) (fmt : String) (r : Reprojection)
    (hr : _get_reprojection res roi rg dg = Except.ok r)
    (hn : 2 ≤ observationCount env pp dp) :
    _run_eo_data_post_processor env pp dp op roi res rg dg fmt =
      Except.ok ((List.range (observationCount env pp dp - 1)).flatMap
        (eoWindowEvents env pp dp op fmt)) := by
  simp only [_run_eo_data_post_processor, hr]
  rw [show (env.create_observations
      (env.get_valid_files dp pp.supported_eo_data_types)).dates.length =
    observationCount env pp dp from rfl]
  rw [if_neg (Nat.not_lt.mpr hn)]
  refine (foldlM_ok_blocks _ (eoWindowEvents env pp dp op fmt) ?_ _ []).trans (by simp)
  intro events i
  rw [write_resolves_then_branches _ _ _ _ _ _ _ r hr]
  rfl

theorem var_run_trace (env : Env) (pp : PostProcessor) (dp op : String)
    (vns : List String) (roi : Polygon) (res : ℤ) (rg dg : Option String) (fmt : String)
    (r : Reprojection) (hr : _get_reprojection res roi rg dg = Except.ok r) :
    _run_variable_post_processor env pp dp op vns roi res rg dg fmt =
      Except.ok ((_group_file_refs_by_date (env.get_valid_files dp vns)).enum.flatMap
        (varGroupEvents env pp dp op vns fmt)) := by
  simp only [_run_variable_post_processor, hr]
  refine (foldlM_ok_blocks _ (varGroupEvents env pp dp op vns fmt) ?_ _ []).trans (by simp)
  intro events entry
  rw [write_resolves_then_branches _ _ _ _ _ _ _ r hr]
  rfl

theorem eo_run_skip (env : Env) (pp : PostProcessor) (dp op : String)
    (roi : Polygon) (res : ℤ) (rg dg : Option String) (fmt : String) (r : Reprojection)
    (hr : _get_reprojection res roi rg dg = Except.ok r)
    (hn : observationCount env pp dp < 2) :
    _run_eo_data_post_processor env pp dp op roi res rg dg fmt =
      Except.ok [Event.info ("Not enough observations found. " ++
        "Can not conduct post processing for " ++ pp.name)] := by
  simp only [_run_eo_data_post_processor, hr]
  rw [show (env.create_observations
      (env.get_valid_files dp pp.supported_eo_data_types)).dates.length =
    observationCount env pp dp from rfl]
  rw [if_pos hn]

/-- **C4.** An observation-path run that assembles fewer than two
acquisition dates writes no file, raises no error, and returns normally with
only an informational log message. -/
theorem insufficient_observations_skip (env : Env) (pp : PostProcessor) (dp op : String)
    (roi : Polygon) (res : ℤ) (rg dg : Option String) (fmt : String) (r : Reprojection)
    (hr : _get_reprojection res roi rg dg = Except.ok r)
    (hn : observationCount env pp dp < 2) :
    _run_eo_data_post_processor env pp dp op roi res rg dg fmt =
      Except.ok [Event.info ("Not enough observations found. " ++
        "Can not conduct post processing for " ++ pp.name)] ∧
    ∀ events, _run_eo_data_post_processor env pp dp op roi res rg dg fmt =
      Except.ok events → events.filter isWrote = [] := by
  have h1 := eo_run_skip env pp dp op roi res rg dg fmt r hr hn
  refine ⟨h1, ?_⟩
  intro events hev
  rw [h1] at hev
  cases hev
  rfl

theorem insufficient_observations_skip_witness :
    _get_reprojection 10 samplePolygon (some "EPSG:4326") (some "EPSG:32631") =
      Except.ok ⟨samplePolygon.bounds, 10, 10,
        SpatialReference.epsg 32631, SpatialReference.epsg 4326⟩ ∧
    observationCount oneDateEnv windowProcessor "data" < 2 ∧
    _run_eo_data_post_processor oneDateEnv windowProcessor "data" "out" samplePolygon 10
        (some "EPSG:4326") (some "EPSG:32631") "GeoTiff" =
      Except.ok [Event.info ("Not enough observations found. " ++
        "Can not conduct post processing for " ++ windowProcessor.name)] :=
  ⟨by rfl, by decide,
   (insufficient_observations_skip oneDateEnv windowProcessor "data" "out" samplePolygon 10
     (some "EPSG:4326") (some "EPSG:32631") "GeoTiff" _ (by rfl) (by decide)).1⟩

theorem eo_run_isOk (env : Env) (pp : PostProcessor) (dp op : String) (roi : Polygon)
    (res : ℤ) (rg dg : Option String) (fmt : String) (r : Reprojection)
    (hr : _get_reprojection res roi rg dg = Except.ok r) :
    (_run_eo_data_post_processor env pp dp op roi res rg dg fmt).isOk = true := by
  by_cases hn : observationCount env pp dp < 2
  · rw [eo_run_skip env pp dp op roi res rg dg fmt r hr hn]
    rfl
  · rw [eo_run_trace env pp dp op roi res rg dg fmt r hr (by omega)]
    rfl

/-- **C5.** A run dispatched to a variable-type processor without
`variable_names` fails immediately with the missing-argument error, while a
run dispatched to an observation-type processor ignores `variable_names`
entirely and, whenever the grid hints resolve, succeeds without it. -/
theorem variable_names_required_only_for_variable_path (env : Env) (pp : PostProcessor)
    (dp op : String) (roi : Polygon) (res : ℤ) (rg dg : Option String) (fmt : String) :
    (pp.ptype = PostProcessorType.VARIABLE_POST_PROCESSOR →
      run_actual_post_processor env pp dp op roi res none rg dg fmt =
        Except.error "No list with variable names be provided.") ∧
    (pp.ptype = PostProcessorType.EO_DATA_POST_PROCESSOR →
      (∀ vns, run_actual_post_processor env pp dp op roi res vns rg dg fmt =
        _run_eo_data_post_processor env pp dp op roi res rg dg fmt) ∧
      (∀ r, _get_reprojection res roi rg dg = Except.ok r →
        (run_actual_post_processor env pp dp op roi res none rg dg fmt).isOk = true)) := by
  constructor
  · intro h
    simp [run_actual_post_processor, h]
  · intro h
    constructor
    · intro vns
      simp [run_actual_post_processor, h]
    · intro r hr
      simp only [run_actual_post_processor, h]
      exact eo_run_isOk env pp dp op roi res rg dg fmt r hr

theorem variable_names_required_witness :
    variableProcessor.ptype = PostProcessorType.VARIABLE_POST_PROCESSOR ∧
    run_actual_post_processor twoDateEnv variableProcessor "data" "out" samplePolygon 10
        none (some "EPSG:4326") (some "EPSG:32631") "GeoTiff" =
      Except.error "No list with variable names be provided." :=
  ⟨by rfl,
   (variable_names_required_only_for_variable_path twoDateEnv variableProcessor "data" "out"
     samplePolygon 10 (some "EPSG:4326") (some "EPSG:32631") "GeoTiff").1 (by rfl)⟩

theorem unsupported_format_noop_witness :
    _get_reprojection 10 samplePolygon (some "EPSG:4326") (some "EPSG:32631") =
      Except.ok ⟨samplePolygon.bounds, 10, 10,
        SpatialReference.epsg 32631, SpatialReference.epsg 4326⟩ ∧
    "NetCDF" ≠ "GeoTiff" ∧
    _write [[]] ["f.tif"] samplePolygon 10 (some "EPSG:4326") (some "EPSG:32631") "NetCDF" =
      Except.ok [Event.warned ("Writing of " ++ "NetCDF" ++
        " not supported. Can not write post-processing results.")] :=
  ⟨by rfl, by decide,
   unsupported_format_noop [[]] ["f.tif"] samplePolygon 10 (some "EPSG:4326")
     (some "EPSG:32631") "NetCDF" _ (by rfl) (by decide)⟩

theorem flatMap_filter {α β : Type} (p : β → Bool) (g : α → List β) (l : List α) :
    (l.flatMap g).filter p = l.flatMap (fun a => (g a).filter p) := by
  induction l with
  | nil => rfl
  | cons a t ih => simp [List.filter_append, ih]

theorem flatMap_filterMap {α β γ : Type} (f : β → Option γ) (g : α → List β)
    (l : List α) :
    (l.flatMap g).filterMap f = l.flatMap (fun a => (g a).filterMap f) := by
  induction l with
  | nil => rfl
  | cons a t ih => simp [List.filterMap_append, ih]

theorem flatMap_single {α β : Type} (f : α → β) (l : List α) :
    (l.flatMap fun a => [f a]) = l.map f := by
  induction l with
  | nil => rfl
  | cons a t ih => simp [ih]

theorem wrote_filter_empty (names : List String) :
    (names.map Event.wrote).filter isProgressOrProcessed = [] := by
  induction names with
  | nil => rfl
  | cons n t ih => simp [isProgressOrProcessed, ih]

theorem wrote_filterMap_empty (names : List String) :
    (names.map Event.wrote).filterMap progressValue? = [] := by
  induction names with
  | nil => rfl
  | cons n t ih => simp [progressValue?, ih]

theorem eoWindowEvents_filter (env : Env) (pp : PostProcessor) (dp op fmt : String)
    (i : Nat) :
    (eoWindowEvents env pp dp op fmt i).filter isProgressOrProcessed =
      [Event.progress (pyInt (((i : ℚ) /
        ((observationCount env pp dp - 1 : Nat) : ℚ)) * 100)), Event.processed i] := by
  simp only [eoWindowEvents]
  rw [show (env.create_observations
      (env.get_valid_files dp pp.supported_eo_data_types)).dates.length =
    observationCount env pp dp from rfl]
  by_cases hf : fmt = "GeoTiff"
  · simp [hf, List.filter_cons, isProgressOrProcessed]
    intro a x x1 _ h
    subst h
    rfl
  · simp [hf, List.filter_cons, isProgressOrProcessed]

theorem eoWindowEvents_filterMap (env : Env) (pp : PostProcessor) (dp op fmt : String)
    (i : Nat) :
    (eoWindowEvents env pp dp op fmt i).filterMap progressValue? =
      [pyInt (((i : ℚ) / ((observationCount env pp dp - 1 : Nat) : ℚ)) * 100)] := by
  simp only [eoWindowEvents]
  rw [show (env.create_observations
      (env.get_valid_files dp pp.supported_eo_data_types)).dates.length =
    observationCount env pp dp from rfl]
  by_cases hf : fmt = "GeoTiff"
  · simp [hf, List.filterMap_cons, progressValue?]
  · simp [hf, List.filterMap_cons, progressValue?]

theorem varGroupEvents_filter (env : Env) (pp : PostProcessor) (dp op : String)
    (vns : List String) (fmt : String) (entry : Nat × MDate × List FileRef) :
    (varGroupEvents env pp dp op vns fmt entry).filter isProgressOrProcessed =
      [Event.progress (pyInt (((entry.1 : ℚ) /
        ((groupCount env dp vns : Nat) : ℚ)) * 100)), Event.processed entry.1] := by
  simp only [varGroupEvents]
  rw [show (_group_file_refs_by_date (env.get_valid_files dp vns)).length =
    groupCount env dp vns from rfl]
  by_cases hf : fmt = "GeoTiff"
  · simp [hf, List.filter_cons, isProgressOrProcessed]
    intro a x x1 _ h
    subst h
    rfl
  · simp [hf, List.filter_cons, isProgressOrProcessed]

theorem varGroupEvents_filterMap (env : Env) (pp : PostProcessor) (dp op : String)
    (vns : List String) (fmt : String) (entry : Nat × MDate × List FileRef) :
    (varGroupEvents env pp dp op vns fmt entry).filterMap progressValue? =
      [pyInt (((entry.1 : ℚ) / ((groupCount env dp vns : Nat) : ℚ)) * 100)] := by
  simp only [varGroupEvents]
  rw [show (_group_file_refs_by_date (env.get_valid_files dp vns)).length =
    groupCount env dp vns from rfl]
  by_cases hf : fmt = "GeoTiff"
  · simp [hf, List.filterMap_cons, progressValue?]
  · simp [hf, List.filterMap_cons, progressValue?]

theorem enumFrom_flatMap_fst {α β : Type} (b : Nat → List β) :
    ∀ (l : List α) (k : Nat),
      ((List.enumFrom k l).flatMap fun p => b p.1) = (List.range' k l.length).flatMap b := by
  intro l
  induction l with
  | nil => intro k; rfl
  | cons a t ih =>
    intro k
    simp only [List.enumFrom, List.length_cons, List.range', List.flatMap_cons, ih]

theorem enum_flatMap_fst {α β : Type} (b : Nat → List β) (l : List α) :
    (l.enum.flatMap fun p => b p.1) = (List.range l.length).flatMap b := by
  rw [show l.enum = List.enumFrom 0 l from rfl, List.range_eq_range']
  exact enumFrom_flatMap_fst b l 0

theorem ratio_nonneg (i d : Nat) : (0 : ℚ) ≤ ((i : ℚ) / (d : ℚ)) * 100 := by positivity

theorem pyInt_ratio_mono (d : Nat) {i j : Nat} (hij : i ≤ j) :
    pyInt (((i : ℚ) / (d : ℚ)) * 100) ≤ pyInt (((j : ℚ) / (d : ℚ)) * 100) := by
  rw [pyInt_eq_floor _ (ratio_nonneg i d), pyInt_eq_floor _ (ratio_nonneg j d)]
  apply Int.floor_le_floor
  rcases Nat.eq_zero_or_pos d with hd | hd
  · simp [hd]
  · have hij' : (i : ℚ) ≤ (j : ℚ) := by exact_mod_cast hij
    have hd' : (0 : ℚ) < (d : ℚ) := by exact_mod_cast hd
    gcongr

/-- **C9 (amended).** In both run paths every emitted progress value is the
exact-arithmetic `floor(index / (total-1) * 100)` (observation path, with
`total` the number of assembled observation dates) or
`floor(index / total * 100)` (variable path, with `total` the number of date
groups), the sequence of progress values is monotonically non-decreasing,
and each value is emitted immediately BEFORE — not after — the
corresponding window or group is processed. -/
theorem progress_reporting (env : Env) (pp : PostProcessor) (dp op : String)
    (vns : List String) (roi : Polygon) (res : ℤ) (rg dg : Option String) (fmt : String)
    (r : Reprojection) (hr : _get_reprojection res roi rg dg = Except.ok r) :
    (∃ events, _run_eo_data_post_processor env pp dp op roi res rg dg fmt =
        Except.ok events ∧
      events.filter isProgressOrProcessed =
        (List.range (observationCount env pp dp - 1)).flatMap (fun i =>
          [Event.progress ⌊((i : ℚ) / ((observationCount env pp dp - 1 : Nat) : ℚ)) * 100⌋,
           Event.processed i]) ∧
      List.Pairwise (· ≤ ·) (events.filterMap progressValue?)) ∧
    (∃ events, _run_variable_post_processor env pp dp op vns roi res rg dg fmt =
        Except.ok events ∧
      events.filter isProgressOrProcessed =
        (List.range (groupCount env dp vns)).flatMap (fun i =>
          [Event.progress ⌊((i : ℚ) / ((groupCount env dp vns : Nat) : ℚ)) * 100⌋,
           Event.processed i]) ∧
      List.Pairwise (· ≤ ·) (events.filterMap progressValue?)) := by
  constructor
  · by_cases hn : observationCount env pp dp < 2
    · refine ⟨_, eo_run_skip env pp dp op roi res rg dg fmt r hr hn, ?_, ?_⟩
      · have h0 : observationCount env pp dp - 1 = 0 := by omega
        rw [h0]
        rfl
      · exact List.Pairwise.nil
    · have hn2 : 2 ≤ observationCount env pp dp := by omega
      refine ⟨_, eo_run_trace env pp dp op roi res rg dg fmt r hr hn2, ?_, ?_⟩
      · rw [flatMap_filter]
        simp only [eoWindowEvents_filter]
        have hfun : (fun i : Nat => [Event.progress (pyInt (((i : ℚ) /
            ((observationCount env pp dp - 1 : Nat) : ℚ)) * 100)), Event.processed i]) =
            (fun i : Nat => [Event.progress ⌊((i : ℚ) /
            ((observationCount env pp dp - 1 : Nat) : ℚ)) * 100⌋, Event.processed i]) := by
          funext i
          rw [pyInt_eq_floor _ (ratio_nonneg _ _)]
        rw [hfun]
      · rw [flatMap_filterMap]
        simp only [eoWindowEvents_filterMap]
        rw [flatMap_single, List.pairwise_map]
        exact (List.pairwise_lt_range _).imp (fun h => pyInt_ratio_mono _ (Nat.le_of_lt h))
  · refine ⟨_, var_run_trace env pp dp op vns roi res rg dg fmt r hr, ?_, ?_⟩
    · rw [flatMap_filter]
      simp only [varGroupEvents_filter]
      have hlist : ((_group_file_refs_by_date (env.get_valid_files dp vns)).enum.flatMap
          (fun entry => [Event.progress (pyInt (((entry.1 : ℚ) /
            ((groupCount env dp vns : Nat) : ℚ)) * 100)), Event.processed entry.1])) =
          (List.range (groupCount env dp vns)).flatMap (fun i =>
            [Event.progress ⌊((i : ℚ) / ((groupCount env dp vns : Nat) : ℚ)) * 100⌋,
             Event.processed i]) := by
        refine (enum_flatMap_fst (fun i => [Event.progress (pyInt (((i : ℚ) /
          ((groupCount env dp vns : Nat) : ℚ)) * 100)), Event.processed i]) _).trans ?_
        have hfun : (fun i : Nat => [Event.progress (pyInt (((i : ℚ) /
            ((groupCount env dp vns : Nat) : ℚ)) * 100)), Event.processed i]) =
            (fun i : Nat => [Event.progress ⌊((i : ℚ) /
            ((groupCount env dp vns : Nat) : ℚ)) * 100⌋, Event.processed i]) := by
          funext i
          rw [pyInt_eq_floor _ (ratio_nonneg _ _)]
        rw [hfun]
        rfl
      rw [hlist]
    · rw [flatMap_filterMap]
      simp only [varGroupEvents_filterMap]
      have hlist : ((_group_file_refs_by_date (env.get_valid_files dp vns)).enum.flatMap
          (fun entry => [pyInt (((entry.1 : ℚ) /
            ((groupCount env dp vns : Nat) : ℚ)) * 100)])) =
          (List.range (groupCount env dp vns)).map (fun i : Nat =>
            pyInt (((i : ℚ) / ((groupCount env dp vns : Nat) : ℚ)) * 100)) := by
        refine (enum_flatMap_fst (fun i : Nat => [pyInt (((i : ℚ) /
          ((groupCount env dp vns : Nat) : ℚ)) * 100)]) _).trans ?_
        exact flatMap_single _ _
      rw [hlist, List.pairwise_map]
      exact (List.pairwise_lt_range _).imp (fun h => pyInt_ratio_mono _ (Nat.le_of_lt h))

/-- **C9 (counterexample).** The claim as stated is false: in a concrete
two-date observation run the very first emitted event is the progress value
for window 0, i.e. the progress value is emitted BEFORE the window is
processed, not after it. `progressAfterProcessing` is the claim's order
requirement, and it evaluates to `false` on the run's trace. -/
theorem progress_order_refuted :
    _run_eo_data_post_processor twoDateEnv windowProcessor "data" "out" samplePolygon 10
        (some "EPSG:4326") (some "EPSG:32631") "GeoTiff" =
      Except.ok [Event.progress 0, Event.processed 0,
        Event.wrote "out/X_20200101_20200116.tif"] ∧
    progressAfterProcessing [Event.progress 0, Event.processed 0,
      Event.wrote "out/X_20200101_20200116.tif"] = false := by
  constructor
  · rw [eo_run_trace twoDateEnv windowProcessor "data" "out" samplePolygon 10
      (some "EPSG:4326") (some "EPSG:32631") "GeoTiff"
      ⟨samplePolygon.bounds, 10, 10, SpatialReference.epsg 32631, SpatialReference.epsg 4326⟩
      (by rfl) (by decide)]
    rw [show observationCount twoDateEnv windowProcessor "data" = 2 from rfl]
    rw [show (2 - 1 : Nat) = 1 from rfl, show List.range 1 = [0] from rfl,
      List.flatMap_singleton]
    have hblock : eoWindowEvents twoDateEnv windowProcessor "data" "out" "GeoTiff" 0 =
        Event.progress (pyInt ((((0 : Nat) : ℚ) / (((2 - 1 : Nat) : Nat) : ℚ)) * 100)) ::
        Event.processed 0 :: [Event.wrote "out/X_20200101_20200116.tif"] := by
      rfl
    rw [hblock]
    have hp : pyInt ((((0 : Nat) : ℚ) / (((2 - 1 : Nat) : Nat) : ℚ)) * 100) = 0 := by
      rw [pyInt_eq_floor _ (by positivity)]
      norm_num
    rw [hp]
  · decide

theorem progress_reporting_witness :
    (_get_reprojection 10 samplePolygon (some "EPSG:4326") (some "EPSG:32631") =
      Except.ok ⟨samplePolygon.bounds, 10, 10, SpatialReference.epsg 32631,
        SpatialReference.epsg 4326⟩) ∧
    ((∃ events, _run_eo_data_post_processor twoDateEnv windowProcessor "data" "out"
        samplePolygon 10 (some "EPSG:4326") (some "EPSG:32631") "GeoTiff" =
          Except.ok events ∧
      events.filter isProgressOrProcessed =
        (List.range (observationCount twoDateEnv windowProcessor "data" - 1)).flatMap (fun i =>
          [Event.progress ⌊((i : ℚ) /
            ((observationCount twoDateEnv windowProcessor "data" - 1 : Nat) : ℚ)) * 100⌋,
           Event.processed i]) ∧
      List.Pairwise (· ≤ ·) (events.filterMap progressValue?)) ∧
    (∃ events, _run_variable_post_processor twoDateEnv windowProcessor "data" "out" ["lai"]
        samplePolygon 10 (some "EPSG:4326") (some "EPSG:32631") "GeoTiff" =
          Except.ok events ∧
      events.filter isProgressOrProcessed =
        (List.range (groupCount twoDateEnv "data" ["lai"])).flatMap (fun i =>
          [Event.progress ⌊((i : ℚ) /
            ((groupCount twoDateEnv "data" ["lai"] : Nat) : ℚ)) * 100⌋,
           Event.processed i]) ∧
      List.Pairwise (· ≤ ·) (events.filterMap progressValue?))) :=
  ⟨by rfl, progress_reporting twoDateEnv windowProcessor "data" "out" ["lai"] samplePolygon 10
    (some "EPSG:4326") (some "EPSG:32631") "GeoTiff" _ (by rfl)⟩

/-- **C10.** Both public entry points default the ROI grid hint to
`EPSG:4326` (not to absent) and the destination grid hint to absent, so a
call omitting them interprets the ROI as WGS84 and derives the destination
grid as the UTM zone of the ROI centroid; whenever the ROI grid hint is
present (in particular at its default) the resolved `roi_srs` is parsed from
that hint, so the resolver branch that copies the destination system onto
the ROI is reachable only by passing `roi_grid` explicitly as `None`. -/
theorem entry_point_roi_grid_default (env : Env) (registry : List PostProcessorCreator)
    (inds : List String) (nm : String) (dp op : String) (roi : Polygon) (res : ℤ) :
    run_post_processing env registry inds dp op roi res =
      run_post_processing env registry inds dp op roi res none (some "EPSG:4326") none
        "GeoTiff" ∧
    run_post_processor env registry nm dp op roi res =
      run_post_processor env registry nm dp op roi res [] none (some "EPSG:4326") none
        "GeoTiff" ∧
    _get_reprojection res roi (some "EPSG:4326") none =
      Except.ok ⟨roi.bounds, res, res, _get_projected_srs roi.centroid,
        SpatialReference.epsg 4326⟩ ∧
    (∀ s dg r, _get_reprojection res roi (some s) dg = Except.ok r →
      r.roi_srs = _parse_srs s) := by
  refine ⟨rfl, rfl, ?_, ?_⟩
  · have h : isSame (SpatialReference.epsg 4326) (SpatialReference.epsg 4326) = true := by
      decide
    simp [_get_reprojection, _get_reference_system, parse_wgs84, h]
  · intro s dg r hr
    cases dg with
    | none =>
      cases hss : isSame (_parse_srs s) (SpatialReference.epsg 4326) with
      | true =>
        have he : _get_reprojection res roi (some s) none =
            Except.ok ⟨roi.bounds, res, res, _get_projected_srs roi.centroid,
              _parse_srs s⟩ := by
          simp [_get_reprojection, _get_reference_system, parse_wgs84, hss]
        rw [he] at hr
        cases hr
        rfl
      | false =>
        have he : _get_reprojection res roi (some s) none =
            Except.error ("Cannot derive destination grid for roi grid " ++ s ++
              ". Please specify destination grid") := by
          simp [_get_reprojection, _get_reference_system, parse_wgs84, hss]
        rw [he] at hr
        exact Except.noConfusion hr
    | some d =>
      have he : _get_reprojection res roi (some s) (some d) =
          Except.ok ⟨roi.bounds, res, res, _parse_srs d, _parse_srs s⟩ := by
        simp [_get_reprojection, _get_reference_system]
      rw [he] at hr
      cases hr
      rfl

theorem entry_point_roi_grid_default_witness :
    _get_reprojection 10 samplePolygon (some "EPSG:32631") (some "EPSG:32632") =
      Except.ok ⟨samplePolygon.bounds, 10, 10, SpatialReference.epsg 32632,
        SpatialReference.epsg 32631⟩ ∧
    (⟨samplePolygon.bounds, 10, 10, SpatialReference.epsg 32632,
      SpatialReference.epsg 32631⟩ : Reprojection).roi_srs = _parse_srs "EPSG:32631" :=
  ⟨by rfl,
   (entry_point_roi_grid_default oneDateEnv [] [] "n" "data" "out" samplePolygon 10).2.2.2
     "EPSG:32631" (some "EPSG:32632") _ (by rfl)⟩
